import Mathlib

/-!
Shallow embedding of `src/Python/phate/phate.py` (the PHATE estimator).

The estimator state (`PHATE.__init__`) is a parameter record plus three
cached artifacts (`graph`, `diff_potential`, `embedding`) and the fitted
data `X`.  External collaborators (graphtools graph construction,
`embed_MDS`, von-Neumann-entropy knee selection, landmark interpolation)
are modelled as function parameters; the orchestration, validation and
cache-invalidation logic is translated line by line from the source.
Matrices handled by the orchestrator are an abstract type `α` with
decidable equality (`np.all(X == self.X)` is content equality); the
numeric potential computation (`PHATE.calculate_potential`) is embedded
separately over real matrices.
-/

namespace Phate

/-- The value of the parameter `t`: either the string `'auto'` or an integer. -/
inductive TParam where
  | auto : TParam
  | val : Int → TParam
deriving DecidableEq, Repr

/-- Exceptions raised by the estimator: `NotFittedError` and `ValueError`. -/
inductive PError where
  | notFittedError : PError
  | valueError : PError
deriving DecidableEq, Repr

/-- The estimator's parameter fields, as assigned in `PHATE.__init__`.
Nullable integer parameters (`a`, `n_landmark`, `n_pca`) are `Option Int`;
`t` is `TParam`; string-valued parameters are `String`. -/
structure Params where
  n_components : Int
  k : Int
  a : Option Int
  n_landmark : Option Int
  t : TParam
  potential_method : String
  n_pca : Option Int
  knn_dist : String
  mds_dist : String
  mds : String
  n_jobs : Int
  random_state : Option Int
  verbose : Int
deriving DecidableEq, Repr

/-- The allowable values for `knn_dist` in `PHATE._check_params`
(source lines 226-232).  Note: the list does NOT contain
`"precomputed"`. -/
def knn_dist_allowable : List String :=
  ["euclidean", "cosine", "correlation", "cityblock",
   "l1", "l2", "manhattan", "braycurtis", "canberra",
   "chebyshev", "dice", "hamming", "jaccard",
   "kulsinski", "mahalanobis", "matching", "minkowski",
   "rogerstanimoto", "russellrao", "seuclidean",
   "sokalmichener", "sokalsneath", "sqeuclidean", "yule"]

/-- The allowable values for `mds_dist` in `PHATE._check_params`
(source lines 233-239). -/
def mds_dist_allowable : List String :=
  ["euclidean", "cosine", "correlation", "braycurtis",
   "canberra", "chebyshev", "cityblock", "dice", "hamming",
   "jaccard", "kulsinski", "mahalanobis", "matching",
   "minkowski", "rogerstanimoto", "russellrao",
   "seuclidean", "sokalmichener", "sokalsneath",
   "sqeuclidean", "yule"]

/-- The allowable values for `mds` in `PHATE._check_params`. -/
def mds_allowable : List String := ["classic", "metric", "nonmetric"]

/-- The allowable values for `potential_method` in `PHATE._check_params`. -/
def potential_method_allowable : List String := ["log", "sqrt"]

/-- Embedding of `PHATE._check_params` (source lines 204-243): returns
`true` iff no check raises a `ValueError`.  `check_positive` demands
strict positivity, `check_if_not(None, ...)` skips the check when the
value is `None`, `check_if_not('auto', ...)` skips it when `t = 'auto'`,
and `check_in` demands membership in the listed values.  The `check_int`
checks are vacuous in this model because the fields are integers by
type. -/
def checkParams (p : Params) : Bool :=
  decide (0 < p.n_components) && decide (0 < p.k)
    && (match p.a with | none => true | some v => decide (0 < v))
    && (match p.n_landmark with | none => true | some v => decide (0 < v))
    && (match p.n_pca with | none => true | some v => decide (0 < v))
    && (match p.t with | TParam.auto => true | TParam.val v => decide (0 < v))
    && decide (p.knn_dist ∈ knn_dist_allowable)
    && decide (p.mds_dist ∈ mds_dist_allowable)
    && decide (p.mds ∈ mds_allowable)
    && decide (p.potential_method ∈ potential_method_allowable)

/-- Model of the external graphtools graph handle.  `isLandmark` stands
for `isinstance(graph, graphtools.graphs.LandmarkGraph)`, `isTraditional`
for `isinstance(graph, graphtools.TraditionalGraph)` (the precomputed,
non-extendable kind).  The fields `gn_landmark`, `gn_jobs`,
`grandom_state`, `gverbose` record parameters forwarded to the handle by
`PHATE._set_graph_params`; the diffusion-operator matrices are abstract
data of type `α`. -/
structure Graph (α : Type) where
  isLandmark : Bool
  isTraditional : Bool
  diff_op_mat : α
  landmark_op : α
  gn_landmark : Option Int
  gn_jobs : Int
  grandom_state : Option Int
  gverbose : Int
deriving DecidableEq, Repr

/-- The mutable state of a `PHATE` instance: the parameter record and the
cached artifacts `graph`, `diff_potential`, `embedding`, plus the fitted
data `X` (absent before the first `fit`). -/
structure State (α : Type) where
  params : Params
  graph : Option (Graph α)
  diff_potential : Option α
  embedding : Option α
  X : Option α
deriving DecidableEq, Repr

/-- Embedding of the `PHATE.diff_op` property (source lines 187-202):
landmark graphs expose `landmark_op`, others `diff_op`; before `fit`
(graph absent) a `NotFittedError` is raised.  The sparse-to-dense
conversion is the identity in this model. -/
def diff_op {α : Type} (s : State α) : Except PError α :=
  match s.graph with
  | some g => Except.ok (if g.isLandmark then g.landmark_op else g.diff_op_mat)
  | none => Except.error PError.notFittedError

/-- The diffusion operator a fitted instance works with (the body of the
`diff_op` property once the graph exists). -/
def diffOpOf {α : Type} (g : Graph α) : α :=
  if g.isLandmark then g.landmark_op else g.diff_op_mat

/-- Keyword arguments to `PHATE.set_params`: `none` means the keyword was
not supplied.  For nullable parameters the supplied value is itself an
`Option Int`. -/
structure ParamUpdate where
  n_components : Option Int := none
  mds : Option String := none
  mds_dist : Option String := none
  t : Option TParam := none
  potential_method : Option String := none
  k : Option Int := none
  a : Option (Option Int) := none
  n_pca : Option (Option Int) := none
  knn_dist : Option String := none
  n_landmark : Option (Option Int) := none
  n_jobs : Option Int := none
  random_state : Option (Option Int) := none
  verbose : Option Int := none
deriving DecidableEq, Repr

/-- One keyword of `set_params`: the Python pattern
`if 'x' in params and params['x'] != self.x: self.x = params['x']; flag = True`.
Returns the new field value and whether the change fired. -/
def updField {β : Type} [DecidableEq β] (uv : Option β) (old : β) : β × Bool :=
  match uv with
  | none => (old, false)
  | some v => if v = old then (old, false) else (v, true)

/-- Embedding of `PHATE.set_params` (source lines 325-397).  Follows the
source order: embedding-tier keywords set `reset_embedding`,
potential-tier keywords set `reset_potential`, kernel keywords
(`k`, `a`, `n_pca`, `knn_dist`) set `reset_kernel`; a `knn_dist` change
to or from `"precomputed"` additionally discards the graph immediately.
`n_landmark` sets NO reset flag: it discards the graph when switching to
or from `None` and otherwise forwards the new value to the existing
graph handle in place.  `n_jobs`, `random_state`, `verbose` are stored
and forwarded to the graph.  Then `reset_kernel` discards the graph and
implies `reset_potential`, which clears `diff_potential` and implies
`reset_embedding`, which clears `embedding`.  Finally `_check_params`
runs on the ALREADY-UPDATED fields; its `ValueError`, if any, is the
second component. -/
def set_params {α : Type} [DecidableEq α] (u : ParamUpdate) (s : State α) :
    State α × Option PError :=
  let p := s.params
  let nc := updField u.n_components p.n_components
  let md := updField u.mds p.mds
  let mdd := updField u.mds_dist p.mds_dist
  let reset_embedding0 := nc.2 || md.2 || mdd.2
  let tt := updField u.t p.t
  let pm := updField u.potential_method p.potential_method
  let reset_potential0 := tt.2 || pm.2
  let kk := updField u.k p.k
  let aa := updField u.a p.a
  let npc := updField u.n_pca p.n_pca
  let kd := updField u.knn_dist p.knn_dist
  let graph1 : Option (Graph α) :=
    if kd.2 && (p.knn_dist = "precomputed" || kd.1 = "precomputed") then none
    else s.graph
  let reset_kernel := kk.2 || aa.2 || npc.2 || kd.2
  let nlStep : Option (Graph α) × Option Int :=
    match u.n_landmark with
    | none => (graph1, p.n_landmark)
    | some v =>
      if v = p.n_landmark then (graph1, p.n_landmark)
      else if p.n_landmark = none ∨ v = none then (none, v)
      else (graph1.map (fun g => { g with gn_landmark := v }), v)
  let graph2 := nlStep.1
  let nl := nlStep.2
  let njStep : Option (Graph α) × Int :=
    match u.n_jobs with
    | none => (graph2, p.n_jobs)
    | some v => (graph2.map (fun g => { g with gn_jobs := v }), v)
  let graph3 := njStep.1
  let rsStep : Option (Graph α) × Option Int :=
    match u.random_state with
    | none => (graph3, p.random_state)
    | some v => (graph3.map (fun g => { g with grandom_state := v }), v)
  let graph4 := rsStep.1
  let vbStep : Option (Graph α) × Int :=
    match u.verbose with
    | none => (graph4, p.verbose)
    | some v => (graph4.map (fun g => { g with gverbose := v }), v)
  let graph5 := vbStep.1
  let graphF := if reset_kernel then none else graph5
  let reset_potential := reset_potential0 || reset_kernel
  let reset_embedding := reset_embedding0 || reset_potential
  let dpF := if reset_potential then none else s.diff_potential
  let embF := if reset_embedding then none else s.embedding
  let pF : Params :=
    { n_components := nc.1, k := kk.1, a := aa.1, n_landmark := nl,
      t := tt.1, potential_method := pm.1, n_pca := npc.1,
      knn_dist := kd.1, mds_dist := mdd.1, mds := md.1,
      n_jobs := njStep.2, random_state := rsStep.2, verbose := vbStep.2 }
  let sF : State α :=
    { params := pF, graph := graphF, diff_potential := dpF,
      embedding := embF, X := s.X }
  (sF, if checkParams pF then none else some PError.valueError)

/-- The default parameter values of `PHATE.__init__`. -/
def default_params : Params :=
  { n_components := 2, k := 5, a := some 10, n_landmark := some 2000,
    t := TParam.auto, potential_method := "log", n_pca := some 100,
    knn_dist := "euclidean", mds_dist := "euclidean", mds := "metric",
    n_jobs := 1, random_state := none, verbose := 1 }

/-- A freshly constructed, unfitted instance with default parameters
(all caches `None`, as set in `__init__`). -/
def default_state (α : Type) : State α :=
  { params := default_params, graph := none, diff_potential := none,
    embedding := none, X := none }

/-- The keyword arguments `PHATE.fit` passes to `graphtools.Graph`
(source lines 505-515), after the shape-based adjustments of lines
485-502. -/
structure BuildArgs where
  distance : String
  n_pca : Option Int
  n_landmark : Option Int
  knn : Int
  decay : Option Int
  n_jobs : Int
  verbose : Int
  random_state : Option Int
deriving DecidableEq, Repr

/-- Embedding of the argument computation in `PHATE.fit` when a graph
must be built (source lines 485-515).  With `knn_dist = 'precomputed'`
the distance mode is chosen from the top-left entry of `X` alone:
`"distance"` if `X[0,0] == 0`, else `"affinity"`.  PCA is disabled
(`n_pca = None`) when `X.shape[1] <= n_pca`, and landmarking is disabled
when `n_landmark` is `None` or `X.shape[0] <= n_landmark`.  (When the
configured `n_pca` is `None`, the source's comparison
`X.shape[1] <= None` is falsy under the code's Python-2 ordering and
`None` is forwarded either way.)  `knn` is `k + 1` and `decay` is `a`. -/
def fit_build_args (p : Params) (n_samples n_features : Int) (x00 : ℚ) : BuildArgs :=
  { distance :=
      if p.knn_dist = "precomputed" then
        (if x00 = 0 then "distance" else "affinity")
      else p.knn_dist
  , n_pca :=
      match p.n_pca with
      | none => none
      | some v => if n_features ≤ v then none else some v
  , n_landmark :=
      match p.n_landmark with
      | none => none
      | some v => if n_samples ≤ v then none else some v
  , knn := p.k + 1
  , decay := p.a
  , n_jobs := p.n_jobs
  , verbose := p.verbose
  , random_state := p.random_state }

/-- Embedding of `PHATE.fit` (source lines 454-530), parametric in the
external collaborators: `build` is `graphtools.Graph`, `trySetOk g p`
tells whether the existing handle accepts the current parameters in
place (`graph.set_params` not raising `ValueError`), in which case the
updated handle is `setp g p`; `shape` and `topLeft` read `X.shape` and
`X[0, 0]`.  If data differing in content from the fitted data is given,
the graph is discarded; a rejected in-place update also discards the
graph and rebuilds (the source's `return self.fit(X)` recursion, which
immediately takes the build branch). -/
def fit {α : Type} [DecidableEq α]
    (build : BuildArgs → α → Graph α) (trySetOk : Graph α → Params → Bool)
    (setp : Graph α → Params → Graph α)
    (shape : α → Int × Int) (topLeft : α → ℚ)
    (s : State α) (X : α) : State α :=
  let s1 : State α :=
    match s.X with
    | none => s
    | some x0 => if X = x0 then s else { s with graph := none }
  let s2 : State α := { s1 with X := some X }
  match s2.graph with
  | none =>
    { s2 with graph := some (build
        (fit_build_args s2.params (shape X).1 (shape X).2 (topLeft X)) X) }
  | some g =>
    if trySetOk g s2.params then { s2 with graph := some (setp g s2.params) }
    else
      { s2 with graph := some (build
          (fit_build_args s2.params (shape X).1 (shape X).2 (topLeft X)) X) }

/-- The dispatch structure of `PHATE.calculate_potential` (source lines
627-660) at the orchestrator level: the numeric kernels (matrix power
followed by the log or sqrt transform) are the parameters `potLog` and
`potSqrt`; any other `potential_method` raises a `ValueError`. -/
def calculate_potential_m {α : Type} (potLog potSqrt : α → Int → α)
    (method : String) (d : α) (t : Int) : Except PError α :=
  if method = "log" then Except.ok (potLog d t)
  else if method = "sqrt" then Except.ok (potSqrt d t)
  else Except.error PError.valueError

/-- The choice of diffusion depth at the top of the main transform
branch (source lines 580-584): the knee selector `optimalT` on the
diffusion operator when `t = 'auto'`, the configured integer
otherwise. -/
def chooseT {α : Type} (optimalT : α → Int) (s : State α) (g : Graph α) : Int :=
  match s.params.t with
  | TParam.auto => optimalT (diffOpOf g)
  | TParam.val tv => tv

/-- The potential stage of the main transform branch (source lines
585-586): reuse the cached `diff_potential` when present, otherwise run
`calculate_potential` on the diffusion operator at depth `t`. -/
def potentialStep {α : Type} (potLog potSqrt : α → Int → α)
    (s : State α) (g : Graph α) (t : Int) : Except PError α :=
  match s.diff_potential with
  | some d => Except.ok d
  | none => calculate_potential_m potLog potSqrt s.params.potential_method (diffOpOf g) t

/-- The main branch of `PHATE.transform` (source lines 579-598), entered
when no new data is supplied: fix `t` (`chooseT`), compute
`diff_potential` if absent (`potentialStep`), compute `embedding` via
`embed_MDS` (`eM`) if absent, store both, and return either the
embedding or, for a landmark graph, the interpolation
`graph.interpolate(self.embedding)` (`itp` with no transitions). -/
def transformFitted {α : Type} (optimalT : α → Int) (potLog potSqrt : α → Int → α)
    (eM : α → Int → String → String → Int → Option Int → Int → α)
    (itp : Graph α → Option α → Option α → α)
    (s : State α) (g : Graph α) : Except PError (α × State α) :=
  match potentialStep potLog potSqrt s g (chooseT optimalT s g) with
  | Except.error e => Except.error e
  | Except.ok d =>
    let emb : α :=
      match s.embedding with
      | some e => e
      | none => eM d s.params.n_components s.params.mds s.params.mds_dist
          s.params.n_jobs s.params.random_state (s.params.verbose - 1)
    let sF : State α := { s with diff_potential := some d, embedding := some emb }
    if g.isLandmark then Except.ok (itp g (some emb) none, sF)
    else Except.ok (emb, sF)

/-- Embedding of `PHATE.transform` (source lines 532-598).  Unfitted
instances raise `NotFittedError`.  Data differing in content from the
fitted data (`not np.all(X == self.X)`) raises `ValueError` on a
precomputed (`TraditionalGraph`) graph and otherwise returns
`graph.interpolate(self.embedding, graph.extend_to_data(X))` without
touching any cached state; `ext` is `extend_to_data` and `itp` is
`interpolate` (whose embedding argument is passed exactly as cached,
possibly `None`).  Otherwise the main branch `transformFitted` runs. -/
def transform {α : Type} [DecidableEq α] (optimalT : α → Int)
    (potLog potSqrt : α → Int → α)
    (eM : α → Int → String → String → Int → Option Int → Int → α)
    (ext : Graph α → α → α) (itp : Graph α → Option α → Option α → α)
    (s : State α) (X : Option α) : Except PError (α × State α) :=
  match s.graph with
  | none => Except.error PError.notFittedError
  | some g =>
    match X with
    | some x =>
      if s.X = some x then transformFitted optimalT potLog potSqrt eM itp s g
      else if g.isTraditional then Except.error PError.valueError
      else Except.ok (itp g s.embedding (some (ext g x)), s)
    | none => transformFitted optimalT potLog potSqrt eM itp s g

/-- Matrix power by repeated multiplication, as
`np.linalg.matrix_power(diff_op, t)` computes it (source line 648). -/
def matPow {n : ℕ} (P : Matrix (Fin n) (Fin n) ℝ) : ℕ → Matrix (Fin n) (Fin n) ℝ
  | 0 => 1
  | t + 1 => matPow P t * P

/-- Embedding of the numeric body of `PHATE.calculate_potential`
(source lines 646-659) over real matrices: power the diffusion operator,
then `-log(P^t + 1e-7)` for `'log'`, `sqrt(P^t)` for `'sqrt'`, and a
`ValueError` for any other `potential_method`. -/
noncomputable def calculate_potential {n : ℕ} (method : String)
    (P : Matrix (Fin n) (Fin n) ℝ) (t : ℕ) :
    Except PError (Matrix (Fin n) (Fin n) ℝ) :=
  let diff_op_t := matPow P t
  if method = "log" then
    Except.ok (Matrix.of fun i j => -Real.log (diff_op_t i j + 1e-7))
  else if method = "sqrt" then
    Except.ok (Matrix.of fun i j => Real.sqrt (diff_op_t i j))
  else Except.error PError.valueError

/-- A concrete graph handle over trivial data, used to exercise the
cache-invalidation logic on explicit inputs. -/
def sample_graph : Graph Unit :=
  { isLandmark := false, isTraditional := false, diff_op_mat := (),
    landmark_op := (), gn_landmark := some 2000, gn_jobs := 1,
    grandom_state := none, gverbose := 1 }

/-- A fitted instance with all three artifacts cached, under the default
parameters. -/
def fitted_state : State Unit :=
  { params := default_params, graph := some sample_graph,
    diff_potential := some (), embedding := some (), X := some () }

/-- A 1-by-1 diffusion operator with entry 1/2, a concrete input for the
potential theorems. -/
noncomputable def sampleP : Matrix (Fin 1) (Fin 1) ℝ :=
  Matrix.of fun _ _ => (1 : ℝ) / 2

/-- A concrete non-landmark, non-precomputed graph handle over `Bool`
data, for exercising `transform`. -/
def sample_graph_b : Graph Bool :=
  { isLandmark := false, isTraditional := false, diff_op_mat := false,
    landmark_op := false, gn_landmark := some 2000, gn_jobs := 1,
    grandom_state := none, gverbose := 1 }

/-- A fitted instance over `Bool` data whose potential and embedding
have not been computed yet. -/
def fresh_fitted_state : State Bool :=
  { params := default_params, graph := some sample_graph_b,
    diff_potential := none, embedding := none, X := some false }

/-- A fitted instance over `Bool` data with potential and embedding
cached. -/
def cached_state : State Bool :=
  { params := default_params, graph := some sample_graph_b,
    diff_potential := some false, embedding := some true, X := some false }

/-- Entries of a repeated matrix product of entrywise-nonnegative
matrices are nonnegative. -/
theorem matPow_nonneg {n : ℕ} (P : Matrix (Fin n) (Fin n) ℝ)
    (hP : ∀ i j, 0 ≤ P i j) (t : ℕ) : ∀ i j, 0 ≤ matPow P t i j := by
  induction t with
  | zero =>
    intro i j
    rw [matPow, Matrix.one_apply]
    split <;> norm_num
  | succ k ih =>
    intro i j
    rw [matPow, Matrix.mul_apply]
    exact Finset.sum_nonneg fun m _ => mul_nonneg (ih i m) (hP m j)

/-- C5: on a pipeline instance whose cached graph is absent (fit has not
succeeded), `transform` and the `diff_op` accessor both raise the
not-fitted error instead of returning a value. -/
theorem transform_requires_fit {α : Type} [DecidableEq α] (oT : α → Int)
    (pL pS : α → Int → α)
    (eM : α → Int → String → String → Int → Option Int → Int → α)
    (ext : Graph α → α → α) (itp : Graph α → Option α → Option α → α)
    (s : State α) (X : Option α) (h : s.graph = none) :
    transform oT pL pS eM ext itp s X = Except.error PError.notFittedError ∧
    diff_op s = Except.error PError.notFittedError := by
  constructor
  · rw [transform, h]
  · rw [diff_op, h]

/-- C5 witness: the freshly constructed default instance has no graph,
and both accesses fail with the not-fitted error. -/
theorem transform_requires_fit_witness :
    (default_state Unit).graph = none ∧
    (transform (fun _ => 0) (fun d _ => d) (fun d _ => d)
        (fun d _ _ _ _ _ _ => d) (fun _ x => x) (fun _ _ _ => ())
        (default_state Unit) none = Except.error PError.notFittedError ∧
      diff_op (default_state Unit) = Except.error PError.notFittedError) :=
  ⟨rfl, transform_requires_fit (fun _ => 0) (fun d _ => d) (fun d _ => d)
    (fun d _ _ _ _ _ _ => d) (fun _ x => x) (fun _ _ _ => ())
    (default_state Unit) none rfl⟩

/-- C6: contrary to the claim, the string "precomputed" is NOT in the
allowable values list checked for knn_dist, so both construction with
knn_dist = "precomputed" and a set_params call supplying it fail the
eager validation with a ValueError, although the class docstring, the
set_params docstring and the precomputed-distance handling in fit all
document and implement support for this value.  The default parameters
do pass validation, so the failure is due to "precomputed" alone. -/
theorem knn_dist_precomputed_rejected :
    "precomputed" ∉ knn_dist_allowable ∧
    checkParams { default_params with knn_dist := "precomputed" } = false ∧
    checkParams default_params = true ∧
    (set_params { knn_dist := some "precomputed" } (default_state Unit)).2
      = some PError.valueError := by
  decide

/-- C9: on a fitted pipeline with an extendable (non-precomputed) graph,
a transform call on data differing from the fitted data returns the
interpolation of the cached embedding (passed exactly as cached, even
when it is None) over the extension transitions, and leaves the whole
cached state unchanged. -/
theorem transform_extension_is_pure {α : Type} [DecidableEq α] (oT : α → Int)
    (pL pS : α → Int → α)
    (eM : α → Int → String → String → Int → Option Int → Int → α)
    (ext : Graph α → α → α) (itp : Graph α → Option α → Option α → α)
    (s : State α) (g : Graph α) (x : α)
    (hg : s.graph = some g) (htr : g.isTraditional = false)
    (hx : s.X ≠ some x) :
    transform oT pL pS eM ext itp s (some x)
      = Except.ok (itp g s.embedding (some (ext g x)), s) := by
  rw [transform, hg]
  simp [hx, htr]

/-- C9 witness: a fitted state with no cached embedding, transformed on
new data; the interpolator observes that its embedding argument is None
and the state is returned unchanged. -/
theorem transform_extension_is_pure_witness :
    fresh_fitted_state.graph = some sample_graph_b ∧
    sample_graph_b.isTraditional = false ∧
    fresh_fitted_state.X ≠ some true ∧
    transform (fun _ => 5) (fun d _ => d) (fun d _ => d)
        (fun d _ _ _ _ _ _ => d) (fun _ x => x)
        (fun _ e _ => decide (e = none)) fresh_fitted_state (some true)
      = Except.ok (true, fresh_fitted_state) := by
  refine ⟨rfl, rfl, by decide, ?_⟩
  rw [transform_extension_is_pure (fun _ => 5) (fun d _ => d) (fun d _ => d)
    (fun d _ _ _ _ _ _ => d) (fun _ x => x) (fun _ e _ => decide (e = none))
    fresh_fitted_state sample_graph_b true rfl rfl (by decide)]
  rfl

/-- C8: when knn_dist is "precomputed" and fit must build a graph, the
construction mode is chosen solely from the top-left entry of the input:
"distance" exactly when X[0,0] equals 0, and "affinity" otherwise. -/
theorem fit_precomputed_mode (p : Params) (ns nf : Int) (x00 : ℚ)
    (h : p.knn_dist = "precomputed") :
    ((fit_build_args p ns nf x00).distance = "distance" ↔ x00 = 0) ∧
    ((fit_build_args p ns nf x00).distance = "affinity" ↔ x00 ≠ 0) := by
  by_cases hx : x00 = 0 <;> simp [fit_build_args, h, hx]

/-- C8 witness: with precomputed knn_dist, a zero top-left entry selects
distance mode and a nonzero one affinity mode. -/
theorem fit_precomputed_mode_witness :
    ({ default_params with knn_dist := "precomputed" } : Params).knn_dist
        = "precomputed" ∧
    ((fit_build_args { default_params with knn_dist := "precomputed" } 3 3 0).distance
        = "distance" ↔ (0 : ℚ) = 0) := by
  refine ⟨rfl, ?_⟩
  exact (fit_precomputed_mode { default_params with knn_dist := "precomputed" }
    3 3 0 rfl).1

/-- C10: fit silently disables landmarking and PCA from the data shape:
the graph builder receives n_landmark = None exactly when the configured
n_landmark is None or the sample count is at most it, and (for an
integer-configured n_pca) n_pca = None exactly when the feature count is
at most it; a None n_pca is forwarded as None. -/
theorem fit_disables_landmark_pca (p : Params) (ns nf : Int) (x00 : ℚ) :
    ((fit_build_args p ns nf x00).n_landmark = none ↔
        p.n_landmark = none ∨ ∃ l, p.n_landmark = some l ∧ ns ≤ l) ∧
    (∀ v : Int, p.n_pca = some v →
        ((fit_build_args p ns nf x00).n_pca = none ↔ nf ≤ v)) ∧
    (p.n_pca = none → (fit_build_args p ns nf x00).n_pca = none) := by
  refine ⟨?_, ?_, ?_⟩
  · cases hl : p.n_landmark with
    | none => simp [fit_build_args, hl]
    | some l =>
      by_cases hle : ns ≤ l <;> simp [fit_build_args, hl, hle]
  · intro v hv
    by_cases hle : nf ≤ v <;> simp [fit_build_args, hv, hle]
  · intro hv
    simp [fit_build_args, hv]

/-- C10 witness: with 100 samples of 20 features under the default
configuration (n_landmark 2000, n_pca 100), both are disabled. -/
theorem fit_disables_landmark_pca_witness :
    default_params.n_pca = some 100 ∧
    ((fit_build_args default_params 100 20 0).n_landmark = none ∧
      (fit_build_args default_params 100 20 0).n_pca = none) := by
  have h := fit_disables_landmark_pca default_params 100 20 0
  refine ⟨rfl, h.1.mpr (Or.inr ⟨2000, rfl, by norm_num⟩), (h.2.1 100 rfl).mpr (by norm_num)⟩

/-- C3: calculate_potential computes the t-th matrix power of the
diffusion operator (the repeated product agrees with the monoid power),
and returns the elementwise -log(P^t + 1e-7) for the log method and the
elementwise sqrt(P^t) for the sqrt method. -/
theorem calculate_potential_correct {n : ℕ} (P : Matrix (Fin n) (Fin n) ℝ)
    (t : ℕ) (ht : 1 ≤ t) :
    matPow P t = P ^ t ∧
    calculate_potential "log" P t
      = Except.ok (Matrix.of fun i j => -Real.log ((P ^ t) i j + 1e-7)) ∧
    calculate_potential "sqrt" P t
      = Except.ok (Matrix.of fun i j => Real.sqrt ((P ^ t) i j)) := by
  have hpow : matPow P t = P ^ t := by
    clear ht
    induction t with
    | zero => rw [matPow, pow_zero]
    | succ k ih => rw [matPow, ih, pow_succ]
  refine ⟨hpow, ?_, ?_⟩ <;> simp [calculate_potential, hpow]

/-- C3 witness: the 1-by-1 operator with entry 1/2 at t = 1. -/
theorem calculate_potential_correct_witness :
    1 ≤ 1 ∧
    calculate_potential "log" sampleP 1
      = Except.ok (Matrix.of fun i j => -Real.log ((sampleP ^ 1) i j + 1e-7)) :=
  ⟨le_refl 1, (calculate_potential_correct sampleP 1 (le_refl 1)).2.1⟩

/-- C4: for a diffusion operator with entries in the unit interval and
any positive diffusion depth, the log potential succeeds and every entry
is the negated logarithm of a strictly positive argument (the power's
entry plus the fixed epsilon 1e-7), so no entry is -infinity or
undefined. -/
theorem log_potential_no_singularity {n : ℕ} (P : Matrix (Fin n) (Fin n) ℝ)
    (t : ℕ) (hP : ∀ i j, 0 ≤ P i j ∧ P i j ≤ 1) (ht : 1 ≤ t) :
    ∃ D, calculate_potential "log" P t = Except.ok D ∧
      ∀ i j, 0 < matPow P t i j + 1e-7 ∧
        D i j = -Real.log (matPow P t i j + 1e-7) := by
  have h0 : ∀ i j, (0 : ℝ) < matPow P t i j + 1e-7 := by
    intro i j
    have hnn := matPow_nonneg P (fun i j => (hP i j).1) t i j
    have heps : (0 : ℝ) < 1e-7 := by norm_num
    linarith
  refine ⟨Matrix.of fun i j => -Real.log (matPow P t i j + 1e-7), ?_,
    fun i j => ⟨h0 i j, rfl⟩⟩
  simp [calculate_potential]

/-- C4 witness: the 1-by-1 operator with entry 1/2 at t = 1 satisfies
the entry bounds and its log potential has a positive log argument. -/
theorem log_potential_no_singularity_witness :
    (∀ i j, 0 ≤ sampleP i j ∧ sampleP i j ≤ 1) ∧
    ∃ D, calculate_potential "log" sampleP 1 = Except.ok D ∧
      ∀ i j, 0 < matPow sampleP 1 i j + 1e-7 ∧
        D i j = -Real.log (matPow sampleP 1 i j + 1e-7) := by
  have hb : ∀ i j, 0 ≤ sampleP i j ∧ sampleP i j ≤ 1 := by
    intro i j
    constructor <;> simp [sampleP] <;> norm_num
  exact ⟨hb, log_potential_no_singularity sampleP 1 hb (le_refl 1)⟩

/-- A supplied keyword always leaves the field holding the supplied
value, whether or not it differed from the old one. -/
theorem updField_fst {β : Type} [DecidableEq β] (v old : β) :
    (updField (some v) old).1 = v := by
  by_cases h : v = old <;> simp [updField, h]

/-- An absent keyword changes nothing and fires no flag. -/
theorem updField_none {β : Type} [DecidableEq β] (old : β) :
    updField (none : Option β) old = (old, false) := rfl

/-- C1 counterexample: on a fully cached instance, changing the
kernel-tier parameter n_landmark (from 2000 to 1000, neither None) via
set_params clears NOTHING: the graph handle survives (with the new value
forwarded in place) and both diff_potential and embedding stay cached,
contradicting the claimed kernel-tier invalidation. -/
theorem set_params_n_landmark_keeps_caches :
    fitted_state.params.n_landmark = some 2000 ∧
    (set_params { n_landmark := some (some 1000) } fitted_state).2 = none ∧
    (set_params { n_landmark := some (some 1000) } fitted_state).1.params.n_landmark
      = some 1000 ∧
    (set_params { n_landmark := some (some 1000) } fitted_state).1.graph
      = some { sample_graph with gn_landmark := some 1000 } ∧
    (set_params { n_landmark := some (some 1000) } fitted_state).1.diff_potential
      = some () ∧
    (set_params { n_landmark := some (some 1000) } fitted_state).1.embedding
      = some () := by
  decide

/-- C1 (amended): the post-update cache state of set_params follows the
three-tier table for every parameter EXCEPT n_landmark: changing k, a,
n_pca or knn_dist clears graph, diff_potential and embedding; changing
t or potential_method clears diff_potential and embedding and retains
the graph; changing n_components, mds or mds_dist clears only the
embedding; changing n_landmark never clears diff_potential or
embedding, discards the graph only when switching to or from None, and
otherwise updates the existing graph handle in place. -/
theorem set_params_invalidation {α : Type} [DecidableEq α] (s : State α) :
    (∀ v : Int, v ≠ s.params.k →
      ((set_params { k := some v } s).1.graph = none ∧
       (set_params { k := some v } s).1.diff_potential = none ∧
       (set_params { k := some v } s).1.embedding = none)) ∧
    (∀ v : Option Int, v ≠ s.params.a →
      ((set_params { a := some v } s).1.graph = none ∧
       (set_params { a := some v } s).1.diff_potential = none ∧
       (set_params { a := some v } s).1.embedding = none)) ∧
    (∀ v : Option Int, v ≠ s.params.n_pca →
      ((set_params { n_pca := some v } s).1.graph = none ∧
       (set_params { n_pca := some v } s).1.diff_potential = none ∧
       (set_params { n_pca := some v } s).1.embedding = none)) ∧
    (∀ v : String, v ≠ s.params.knn_dist →
      ((set_params { knn_dist := some v } s).1.graph = none ∧
       (set_params { knn_dist := some v } s).1.diff_potential = none ∧
       (set_params { knn_dist := some v } s).1.embedding = none)) ∧
    (∀ v : TParam, v ≠ s.params.t →
      ((set_params { t := some v } s).1.graph = s.graph ∧
       (set_params { t := some v } s).1.diff_potential = none ∧
       (set_params { t := some v } s).1.embedding = none)) ∧
    (∀ v : String, v ≠ s.params.potential_method →
      ((set_params { potential_method := some v } s).1.graph = s.graph ∧
       (set_params { potential_method := some v } s).1.diff_potential = none ∧
       (set_params { potential_method := some v } s).1.embedding = none)) ∧
    (∀ v : Int, v ≠ s.params.n_components →
      ((set_params { n_components := some v } s).1.graph = s.graph ∧
       (set_params { n_components := some v } s).1.diff_potential
         = s.diff_potential ∧
       (set_params { n_components := some v } s).1.embedding = none)) ∧
    (∀ v : String, v ≠ s.params.mds →
      ((set_params { mds := some v } s).1.graph = s.graph ∧
       (set_params { mds := some v } s).1.diff_potential = s.diff_potential ∧
       (set_params { mds := some v } s).1.embedding = none)) ∧
    (∀ v : String, v ≠ s.params.mds_dist →
      ((set_params { mds_dist := some v } s).1.graph = s.graph ∧
       (set_params { mds_dist := some v } s).1.diff_potential
         = s.diff_potential ∧
       (set_params { mds_dist := some v } s).1.embedding = none)) ∧
    (∀ v : Option Int, v ≠ s.params.n_landmark →
      ((set_params { n_landmark := some v } s).1.diff_potential
         = s.diff_potential ∧
       (set_params { n_landmark := some v } s).1.embedding = s.embedding ∧
       (s.params.n_landmark = none ∨ v = none →
         (set_params { n_landmark := some v } s).1.graph = none) ∧
       (s.params.n_landmark ≠ none → v ≠ none →
         (set_params { n_landmark := some v } s).1.graph
           = s.graph.map fun g => { g with gn_landmark := v }))) := by
  refine ⟨?_, ?_, ?_, ?_, ?_, ?_, ?_, ?_, ?_, ?_⟩ <;> intro v hv
  · simp [set_params, updField, hv]
  · simp [set_params, updField, hv]
  · simp [set_params, updField, hv]
  · simp [set_params, updField, hv]
  · simp [set_params, updField, hv]
  · simp [set_params, updField, hv]
  · simp [set_params, updField, hv]
  · simp [set_params, updField, hv]
  · simp [set_params, updField, hv]
  · refine ⟨?_, ?_, ?_, ?_⟩
    · simp [set_params, updField, hv]
    · simp [set_params, updField, hv]
    · rintro (hn | hn)
      · rw [hn] at hv
        simp [set_params, updField, hv, hn]
      · subst hn
        simp [set_params, updField, hv]
    · intro h1 h2
      simp [set_params, updField, hv, h1, h2]

/-- C1 witness: on the cached default-parameter instance, changing t to
a concrete value clears diff_potential and embedding and retains the
graph. -/
theorem set_params_invalidation_witness :
    TParam.val 5 ≠ fitted_state.params.t ∧
    ((set_params { t := some (TParam.val 5) } fitted_state).1.graph
        = fitted_state.graph ∧
     (set_params { t := some (TParam.val 5) } fitted_state).1.diff_potential
        = none ∧
     (set_params { t := some (TParam.val 5) } fitted_state).1.embedding
        = none) :=
  ⟨by decide, (set_params_invalidation fitted_state).2.2.2.2.1
    (TParam.val 5) (by decide)⟩

/-- C2 counterexample: supplying the invalid value "mmds" for mds does
raise the ValueError, but the failed call does NOT leave the instance
unchanged: the configuration now holds the invalid value and the cached
embedding has been cleared. -/
theorem set_params_invalid_value_mutates :
    fitted_state.params.mds = "metric" ∧
    fitted_state.embedding = some () ∧
    (set_params { mds := some "mmds" } fitted_state).2 = some PError.valueError ∧
    (set_params { mds := some "mmds" } fitted_state).1.params.mds = "mmds" ∧
    (set_params { mds := some "mmds" } fitted_state).1.embedding = none := by
  decide

/-- C2 (amended): set_params validates only AFTER assigning the supplied
values and running the cache invalidation: the raised error is exactly
determined by validating the post-assignment configuration, and a value
outside its domain (shown for mds, potential_method, knn_dist, mds_dist
and a non-positive k) raises the ValueError while remaining stored in
the configuration. -/
theorem set_params_mutates_then_validates {α : Type} [DecidableEq α]
    (u : ParamUpdate) (s : State α) :
    ((set_params u s).2
       = if checkParams (set_params u s).1.params then none
         else some PError.valueError) ∧
    (∀ v : String, v ∉ mds_allowable →
      ((set_params { mds := some v } s).2 = some PError.valueError ∧
       (set_params { mds := some v } s).1.params.mds = v)) ∧
    (∀ v : String, v ∉ potential_method_allowable →
      ((set_params { potential_method := some v } s).2
          = some PError.valueError ∧
       (set_params { potential_method := some v } s).1.params.potential_method
          = v)) ∧
    (∀ v : String, v ∉ knn_dist_allowable →
      ((set_params { knn_dist := some v } s).2 = some PError.valueError ∧
       (set_params { knn_dist := some v } s).1.params.knn_dist = v)) ∧
    (∀ v : String, v ∉ mds_dist_allowable →
      ((set_params { mds_dist := some v } s).2 = some PError.valueError ∧
       (set_params { mds_dist := some v } s).1.params.mds_dist = v)) ∧
    (∀ v : Int, ¬ 0 < v →
      ((set_params { k := some v } s).2 = some PError.valueError ∧
       (set_params { k := some v } s).1.params.k = v)) := by
  refine ⟨rfl, ?_, ?_, ?_, ?_, ?_⟩ <;> intro v hv <;>
    exact ⟨by simp [set_params, updField_none, updField_fst, checkParams, hv],
      by simp [set_params, updField_none, updField_fst]⟩

/-- C2 witness: supplying the out-of-domain value "mmds" on a fresh
default instance raises the ValueError and stores the value. -/
theorem set_params_mutates_then_validates_witness :
    "mmds" ∉ mds_allowable ∧
    ((set_params { mds := some "mmds" } (default_state Unit)).2
        = some PError.valueError ∧
     (set_params { mds := some "mmds" } (default_state Unit)).1.params.mds
        = "mmds") :=
  ⟨by decide, (set_params_mutates_then_validates { mds := some "mmds" }
    (default_state Unit)).2.1 "mmds" (by decide)⟩

/-- Re-storing the already-cached potential and embedding leaves the
state unchanged. -/
theorem state_update_cached_eq {α : Type} (s : State α) (d e : α)
    (hd : s.diff_potential = some d) (he : s.embedding = some e) :
    ({ s with diff_potential := some d, embedding := some e } : State α) = s := by
  cases s
  simp_all

/-- On a state whose potential and embedding are both cached, the main
transform branch performs no recomputation: it returns the cached
embedding (interpolated for a landmark graph) and the state itself. -/
theorem transformFitted_cached {α : Type} (oT : α → Int) (pL pS : α → Int → α)
    (eM : α → Int → String → String → Int → Option Int → Int → α)
    (itp : Graph α → Option α → Option α → α)
    (s : State α) (g : Graph α) (d e : α)
    (hd : s.diff_potential = some d) (he : s.embedding = some e) :
    transformFitted oT pL pS eM itp s g
      = Except.ok ((if g.isLandmark then itp g (some e) none else e), s) := by
  simp only [transformFitted, potentialStep, hd, he]
  rw [state_update_cached_eq s d e hd he]
  by_cases hl : g.isLandmark <;> simp [hl]

/-- Inversion of a successful main-branch transform: the returned state
is the input state with some potential and embedding stored, and the
returned coordinates are that embedding (interpolated for a landmark
graph). -/
theorem transformFitted_ok_inv {α : Type} (oT : α → Int) (pL pS : α → Int → α)
    (eM : α → Int → String → String → Int → Option Int → Int → α)
    (itp : Graph α → Option α → Option α → α)
    (s : State α) (g : Graph α) (r : α) (s' : State α)
    (h : transformFitted oT pL pS eM itp s g = Except.ok (r, s')) :
    ∃ d e, s' = { s with diff_potential := some d, embedding := some e } ∧
      r = if g.isLandmark then itp g (some e) none else e := by
  simp only [transformFitted] at h
  cases hE : potentialStep pL pS s g (chooseT oT s g) with
  | error e =>
    rw [hE] at h
    simp at h
  | ok d =>
    rw [hE] at h
    cases hemb : s.embedding with
    | some e0 =>
      simp only [hemb] at h
      by_cases hl : g.isLandmark <;>
        simp only [hl, if_true, if_false, Bool.false_eq_true,
          Except.ok.injEq, Prod.mk.injEq] at h <;>
        exact ⟨d, e0, h.2.symm, by simp [hl, h.1.symm]⟩
    | none =>
      simp only [hemb] at h
      by_cases hl : g.isLandmark <;>
        simp only [hl, if_true, if_false, Bool.false_eq_true,
          Except.ok.injEq, Prod.mk.injEq] at h <;>
        exact ⟨d, _, h.2.symm, by simp [hl, h.1.symm]⟩

/-- C7: two consecutive transform calls with no data argument and no
intervening parameter change return identical coordinates: whenever the
first call succeeds with result r and post-state s2, calling transform
again on s2 returns the same r and leaves s2 exactly as it is, reusing
the cached diff_potential and embedding. -/
theorem transform_idempotent {α : Type} [DecidableEq α] (oT : α → Int)
    (pL pS : α → Int → α)
    (eM : α → Int → String → String → Int → Option Int → Int → α)
    (ext : Graph α → α → α) (itp : Graph α → Option α → Option α → α)
    (s : State α) (r : α) (s2 : State α)
    (h : transform oT pL pS eM ext itp s none = Except.ok (r, s2)) :
    transform oT pL pS eM ext itp s2 none = Except.ok (r, s2) := by
  cases hg : s.graph with
  | none =>
    rw [transform, hg] at h
    simp at h
  | some g =>
    rw [transform, hg] at h
    obtain ⟨d, e, hs2, hr⟩ := transformFitted_ok_inv oT pL pS eM itp s g r s2 h
    have hg2 : s2.graph = some g := by rw [hs2]; exact hg
    rw [transform, hg2]
    show transformFitted oT pL pS eM itp s2 g = Except.ok (r, s2)
    rw [transformFitted_cached oT pL pS eM itp s2 g d e (by rw [hs2]) (by rw [hs2])]
    rw [hr]

/-- C7 witness: on a fitted state with empty caches, the first transform
computes and stores potential and embedding; the second call on the
resulting state returns the identical output and state. -/
theorem transform_idempotent_witness :
    transform (fun _ => 5) (fun d _ => d) (fun d _ => d)
        (fun d _ _ _ _ _ _ => d) (fun _ x => x) (fun _ e _ => e.getD false)
        fresh_fitted_state none
      = Except.ok (false, { fresh_fitted_state with
          diff_potential := some false, embedding := some false }) ∧
    transform (fun _ => 5) (fun d _ => d) (fun d _ => d)
        (fun d _ _ _ _ _ _ => d) (fun _ x => x) (fun _ e _ => e.getD false)
        { fresh_fitted_state with
          diff_potential := some false, embedding := some false } none
      = Except.ok (false, { fresh_fitted_state with
          diff_potential := some false, embedding := some false }) :=
  ⟨rfl, transform_idempotent (fun _ => 5) (fun d _ => d) (fun d _ => d)
    (fun d _ _ _ _ _ _ => d) (fun _ x => x) (fun _ e _ => e.getD false)
    fresh_fitted_state false
    { fresh_fitted_state with
      diff_potential := some false, embedding := some false } rfl⟩

end Phate
